import Mathlib

/-!
Shallow embedding of `src/get_netbox_device_report.py`.

The script fetches devices and virtual machines from a NetBox API with
pagination, filters them by status and by an excluded-role set, classifies
each remaining item into a (heading, subheading) pair via the static
DEVICE_ROLE_GROUPS table, aggregates per (site, heading, subheading)
bucket, and renders a summary worksheet plus one worksheet per site.

Modelling conventions:
- Python scalar JSON values that the script inspects are modelled by
  `PyVal` (None, strings, ints, booleans), with Python `==` as `pyEq`
  (True == 1, False == 0) and Python truthiness as `pyTruthy`.
- Fields that the script reads through `isinstance` dispatch keep that
  shape: `StatusF` and `RoleF` mirror the dict-or-raw-value handling of
  the `status` and `role` fields.
- The object-valued fields `site`, `tenant`, `contact`, `location` and
  `platform` are modelled as `Option String` (the contained name):
  `none` stands for an absent or null (falsy) field, `some n` for a
  present object whose name is `n`.
- The nested `defaultdict` `site_device_counts` is modelled as a total
  function from keys to buckets (default bucket `⟨0, []⟩`) together with
  the list `itemKeys` of keys that were actually created; dict-membership
  tests in the script are tests against that key list.  Keys are only
  created at the two increment sites of the aggregation loop, so a key
  exists exactly when some item was bucketed under it.
- The workbook is modelled by its cell content (`Cell`, `Sheet`,
  `Workbook`); styling (fonts, fills, conditional formatting, column
  widths) has no content and is not modelled.
- Python `sorted` on strings is a stable sort in code-point lexicographic
  order, modelled by `List.insertionSort` on the lexicographic order
  `strLeP` over the underlying character lists.
- The paginated HTTP fetch is modelled against an abstract `server`
  function from URLs to responses; the unbounded `while url:` loop takes
  a fuel parameter, with `none` meaning the loop did not finish within
  the given fuel.
-/

namespace NetboxReport

/-- Python scalar values occurring in the JSON fields the script consumes. -/
inductive PyVal where
  | none
  | str (s : String)
  | int (i : Int)
  | bool (b : Bool)
deriving DecidableEq

/-- Python `==` on the modelled scalar values (`True == 1`, `False == 0`). -/
def pyEq : PyVal → PyVal → Bool
  | .none, .none => true
  | .str a, .str b => a = b
  | .int a, .int b => a = b
  | .bool a, .bool b => a = b
  | .bool a, .int b => decide ((if a then (1 : Int) else 0) = b)
  | .int a, .bool b => decide (a = (if b then (1 : Int) else 0))
  | _, _ => false

/-- Python truthiness of the modelled scalar values. -/
def pyTruthy : PyVal → Bool
  | .none => false
  | .str s => s ≠ ""
  | .int i => i ≠ 0
  | .bool b => b

/-- The raw `status` field: a dict holding a `value` key, a raw value, or
absent (line 139 of the script dispatches on `isinstance(..., dict)`). -/
inductive StatusF where
  | obj (value : PyVal)
  | raw (v : PyVal)
  | absent
deriving DecidableEq

/-- The raw `role` field: a dict holding an `id` key, a raw int, or
anything else, which yields no role id (lines 142-149). -/
inductive RoleF where
  | obj (id : Option Int)
  | rint (i : Int)
  | other
deriving DecidableEq

/-- A fetched item (device or virtual machine), restricted to the fields
the script consumes. -/
structure Item where
  site : Option String
  status : StatusF
  role : RoleF
  name : Option String
  description : Option String
  tenant : Option String
  contact : Option String
  location : Option String
  platform : Option String
  primary_ip : PyVal
  serial : PyVal
  backup_cf : PyVal
  mon_cf : PyVal
  item_type : String
deriving DecidableEq

/-- An item with every field absent, used as a base for record updates. -/
def baseItem : Item :=
  ⟨Option.none, .absent, .other, Option.none, Option.none, Option.none,
   Option.none, Option.none, Option.none, .none, .none, .none, .none, ""⟩

/-- `EXCLUDED_ROLE_IDS = {2, 11}` (line 23). -/
def EXCLUDED_ROLE_IDS : List Int := [2, 11]

/-- `HEADING_ORDER` (lines 34-45). -/
def HEADING_ORDER : List String :=
  ["Gateway/Router",
   "Switches",
   "Physical Hosts",
   "Virtual Machines",
   "Storage Area Network",
   "Network Attached Storage",
   "Production Workstations",
   "Uninterruptible Power Supply",
   "Printers",
   "Wireless Access Equipment"]

/-- `DEVICE_ROLE_GROUPS` (lines 47-90), in source order: heading to a list
of (subheading, role ids) pairs. -/
def DEVICE_ROLE_GROUPS : List (String × List (String × List Int)) :=
  [("Gateway/Router",
     [("Enterprise", [12]),
      ("Operational", [34])]),
   ("Switches",
     [("Enterprise Core", [5]),
      ("Enterprise Edge", [1]),
      ("Operational", [28])]),
   ("Physical Hosts",
     [("Enterprise", [6]),
      ("Operational", [43])]),
   ("Virtual Machines",
     [("Enterprise", [4, 19, 17, 20, 18, 33]),
      ("Operational", [35, 36, 37, 38, 39, 40])]),
   ("Storage Area Network",
     [("Enterprise", [16])]),
   ("Network Attached Storage",
     [("Enterprise", [15]),
      ("Operational", [41])]),
   ("Production Workstations",
     [("Operational", [30]),
      ("Quality Assurance", [32]),
      ("Optimisation", [31])]),
   ("Uninterruptible Power Supply",
     [("Enterprise", [14]),
      ("Operational", [44])]),
   ("Printers",
     [("Enterprise", [24]),
      ("Operational", [26])]),
   ("Wireless Access Equipment",
     [("Access Points", [10]),
      ("Point to Point", [45]),
      ("Access Equipment", [46])])]

/-- All role ids listed anywhere in `DEVICE_ROLE_GROUPS`. -/
def allRoleIds : List Int :=
  DEVICE_ROLE_GROUPS.flatMap (fun hg => hg.2.flatMap (fun sg => sg.2))

/-- `get_heading_and_subheading` (lines 92-97): scan the table in source
order, return the first (heading, subheading) whose id list holds the
role id, defaulting to ("Other", "Other"). -/
def get_heading_and_subheading (role_id : Int) : String × String :=
  match DEVICE_ROLE_GROUPS.findSome?
      (fun hg => hg.2.findSome?
        (fun sg => if role_id ∈ sg.2 then some (hg.1, sg.1) else Option.none)) with
  | some p => p
  | Option.none => ("Other", "Other")

/-- `tick` (lines 99-103): symbol and font colour for a boolean check. -/
def tick (val : Bool) : String × String :=
  if val then ("✓", "00AA00") else ("✗", "FF0000")

/-- `short_desc` (lines 105-108) on a string argument, as called by the
renderer: truncate to `length` characters with a trailing ellipsis. -/
def short_desc (desc : String) (length : Nat) : String :=
  if desc.length > length then desc.take (length - 3) ++ "..." else desc

/-- One page of a paginated NetBox API response: the `results` list and
the optional `next` link. -/
structure Page where
  results : List Item
  next : Option String
deriving DecidableEq

/-- The fetch loop sets `item[\x27_item_type\x27] = item_type` on every
fetched item (line 122). -/
def setItemType (t : String) (it : Item) : Item := { it with item_type := t }

/-- `fetch_netbox_items` (lines 115-125) against an abstract server.
`server url` is the response to a GET of `url`: a page, or an HTTP error
status (raised by `raise_for_status`).  The `while url:` loop is given
fuel; `none` means the fuel ran out before the loop finished. -/
def fetch_netbox_items (server : String → Except Nat Page) (t : String) :
    Nat → Option String → Option (Except Nat (List Item))
  | _, Option.none => some (.ok [])
  | 0, some _ => Option.none
  | fuel + 1, some url =>
    match server url with
    | .error e => some (.error e)
    | .ok page =>
      match fetch_netbox_items server t fuel page.next with
      | Option.none => Option.none
      | some (.error e) => some (.error e)
      | some (.ok rest) => some (.ok (page.results.map (setItemType t) ++ rest))

/-- A complete successful pagination chain: starting from the given URL
the server answers with pages whose `next` links are followed until
absent; the list is the in-order concatenation of the tagged results, and
the index counts the pages. -/
inductive Chain (server : String → Except Nat Page) (t : String) :
    Option String → List Item → Nat → Prop where
  | nil : Chain server t Option.none [] 0
  | cons {url : String} {page : Page} {rest : List Item} {n : Nat} :
      server url = .ok page →
      Chain server t page.next rest n →
      Chain server t (some url) (page.results.map (setItemType t) ++ rest) (n + 1)

/-- A pagination chain that reaches a page request answered by an HTTP
error after `n` successful pages. -/
inductive ChainErr (server : String → Except Nat Page) :
    Option String → Nat → Nat → Prop where
  | here {url : String} {e : Nat} :
      server url = .error e → ChainErr server (some url) e 0
  | step {url : String} {page : Page} {e : Nat} {n : Nat} :
      server url = .ok page →
      ChainErr server page.next e n →
      ChainErr server (some url) e (n + 1)

/-- The status value used by the filter (line 139): the dict case reads
its `value` key, otherwise the raw field; an absent field reads as the
`value` of the `{}` default, which is None. -/
def statusVal (it : Item) : PyVal :=
  match it.status with
  | .obj v => v
  | .raw v => v
  | .absent => PyVal.none

/-- Line 140: the item survives the status filter when its status value
is in `(\x27active\x27, 1)` under Python `==`. -/
def statusPasses (it : Item) : Bool :=
  pyEq (statusVal it) (.str "active") || pyEq (statusVal it) (.int 1)

/-- Lines 142-149: the role id, from a role dict or a raw int. -/
def roleId (it : Item) : Option Int :=
  match it.role with
  | .obj i => i
  | .rint i => some i
  | .other => Option.none

/-- Line 150: `role_id in EXCLUDED_ROLE_IDS` (None is never in the set). -/
def roleExcluded (it : Item) : Bool :=
  match roleId it with
  | some i => decide (i ∈ EXCLUDED_ROLE_IDS)
  | Option.none => false

/-- Line 138: the site name, defaulting to "Unassigned Site". -/
def siteName (it : Item) : String := it.site.getD "Unassigned Site"

/-- An item that both survives the status filter and is not role-excluded;
exactly these items are bucketed by the aggregation loop. -/
def passes (it : Item) : Bool := statusPasses it && !roleExcluded it

/-- The `device_info` record built at lines 160-179, with the heading and
subheading it is filed under. -/
structure DeviceInfo where
  site : String
  heading : String
  subheading : String
  name : String
  description : String
  tenant : Option String
  contact : Option String
  location : Option String
  platform : Option String
  primary_ip : PyVal
  serial : PyVal
  backup_primary : PyVal
  monitoring_required : PyVal
  tenant_present : Bool
  contact_present : Bool
  location_present : Bool
  platform_present : Bool
deriving DecidableEq

/-- Build the `device_info` record for an item (lines 152-179). -/
def mkDeviceInfo (it : Item) (heading subheading : String) : DeviceInfo :=
  ⟨siteName it, heading, subheading,
   it.name.getD "Unknown Device",
   it.description.getD "",
   it.tenant, it.contact, it.location, it.platform,
   it.primary_ip, it.serial, it.backup_cf, it.mon_cf,
   it.tenant.isSome, it.contact.isSome, it.location.isSome, it.platform.isSome⟩

/-- One (site, heading, subheading) bucket of `site_device_counts`. -/
structure Bucket where
  count : Nat
  devices : List DeviceInfo
deriving DecidableEq

/-- The defaultdict default `{'count': 0, 'devices': []}` (line 110). -/
def emptyBucket : Bucket := ⟨0, []⟩

/-- A bucket key: (site, heading, subheading). -/
abbrev Key := String × String × String

/-- `site_device_counts` as a total function (defaultdict view). -/
abbrev Agg := Key → Bucket

/-- The single decision the aggregation loop body (lines 135-190) makes
for an item: skipped (`none`), or bucketed under a key with its
device-info record. -/
def bucketOf (it : Item) : Option (Key × DeviceInfo) :=
  if statusPasses it then
    if roleExcluded it then Option.none
    else
      match roleId it with
      | some rid =>
        let hs := get_heading_and_subheading rid
        some ((siteName it, hs.1, hs.2), mkDeviceInfo it hs.1 hs.2)
      | Option.none =>
        some ((siteName it, "Other", "Other"), mkDeviceInfo it "Other" "Other")
  else Option.none

/-- The key an item is bucketed under, if any. -/
def keyOf (it : Item) : Option Key := (bucketOf it).map Prod.fst

/-- One iteration of the aggregation loop: increment the bucket count and
append the device-info record together (lines 184-185 and 189-190). -/
def processItem (acc : Agg) (it : Item) : Agg :=
  match bucketOf it with
  | Option.none => acc
  | some (k, d) =>
    fun q => if q = k then ⟨(acc k).count + 1, (acc k).devices ++ [d]⟩ else acc q

/-- The aggregation pass over all fetched items. -/
def aggregate (items : List Item) : Agg :=
  items.foldl processItem (fun _ => emptyBucket)

/-- The bucket keys created during the aggregation pass, in creation
order (one entry per bucketed item). -/
def itemKeys (items : List Item) : List Key := items.filterMap keyOf

/-- The device-info record an item contributes to bucket `k`, if any. -/
def bucketDevs (k : Key) (it : Item) : Option DeviceInfo :=
  match bucketOf it with
  | some (q, d) => if q = k then some d else Option.none
  | Option.none => Option.none

/-- Code-point lexicographic comparison of character lists, the order
Python string comparison uses. -/
def charsLe : List Char → List Char → Bool
  | [], _ => true
  | _ :: _, [] => false
  | a :: as, b :: bs => if a = b then charsLe as bs else a < b

/-- Python string `<=` on the underlying character data. -/
def strLe (a b : String) : Bool := charsLe a.data b.data

/-- `strLe` as a relation, for sorting. -/
def strLeP (a b : String) : Prop := strLe a b = true

instance : DecidableRel strLeP :=
  fun a b => inferInstanceAs (Decidable (strLe a b = true))

/-- Ordering of device-info records by device name, the sort key of
`sorted(devices, key=lambda d: d[\x27name\x27])` (lines 376 and 424). -/
def byName (d e : DeviceInfo) : Prop := strLe d.name e.name = true

instance : DecidableRel byName :=
  fun d e => inferInstanceAs (Decidable (strLe d.name e.name = true))

/-- Python `sorted` on strings: a stable sort in lexicographic order. -/
def strSort (l : List String) : List String := List.insertionSort strLeP l

/-- Python `sorted(devices, key=lambda d: d[\x27name\x27])`: a stable
sort by device name. -/
def sortByName (devs : List DeviceInfo) : List DeviceInfo :=
  List.insertionSort byName devs

/-- The site keys of `site_device_counts`, as a deduplicated list. -/
def siteKeys (keys : List Key) : List String := (keys.map Prod.fst).dedup

/-- `sorted(site_device_counts)` (lines 220 and 348). -/
def sitesSorted (keys : List Key) : List String := strSort (siteKeys keys)

/-- Is the heading key present under the site (line 222 and line 356,
`heading not in site_device_counts[site]`)?  A heading key exists exactly
when some item was bucketed under (site, heading, _). -/
def headingPresent (keys : List Key) (site heading : String) : Bool :=
  keys.any (fun k => k.1 == site && k.2.1 == heading)

/-- Is the full key present (line 226,
`subheading in site_device_counts[site][heading]`)? -/
def subPresent (keys : List Key) (site heading subheading : String) : Bool :=
  keys.any (fun k => decide (k = (site, heading, subheading)))

/-- A cell of the rendered workbook: a string, an int, or a percentage. -/
inductive Cell where
  | s (v : String)
  | n (v : Nat)
  | q (v : Rat)
deriving DecidableEq

/-- A row of cells. -/
abbrev Row := List Cell

/-- A worksheet: its title and its rows. -/
structure Sheet where
  title : String
  rows : List Row
deriving DecidableEq

/-- The workbook content: its sheets in order. -/
abbrev Workbook := List Sheet

/-- The per-site table column headers (lines 196-199), with the source
spelling kept as is. -/
def headers : List String :=
  ["Device Name", "Description", "Tenant", "Contact", "Location", "Platform",
   "Primary IP", "Serial", "Backup Data - Primay", "Monitoring Required"]

/-- The summary worksheet header row (lines 208-212). -/
def summary_headers : List String :=
  ["Site", "Heading", "Subheading", "Device Count",
   "% Tenant ✓", "% Contact ✓", "% Location ✓", "% Platform ✓",
   "% Primary IP ✓", "% Serial ✓", "% Backup ✓", "% Monitoring ✓"]

/-- `is not False` on a modelled scalar: everything except the boolean
False singleton (lines 237, 395 and 442). -/
def isNotFalse (v : PyVal) : Bool := decide (v ≠ PyVal.bool false)

/-- The summary monitoring counter (line 237): devices whose
`monitoring_required` custom field `is not False`. -/
def monitorTickCount (devs : List DeviceInfo) : Nat :=
  devs.countP (fun d => isNotFalse d.monitoring_required)

/-- The per-row monitoring tick (lines 395 and 442):
`tick(device.get(\x27monitoring_required\x27) is not False)`. -/
def tickMonitor (d : DeviceInfo) : String × String :=
  tick (isNotFalse d.monitoring_required)

/-- One summary data row (lines 230-251) for a nonempty device list. -/
def summaryDataRow (site heading subheading : String)
    (devices : List DeviceInfo) : Row :=
  let count := devices.length
  let pct : Nat → Rat := fun t => if count = 0 then 0 else (t : Rat) / (count : Rat)
  [Cell.s site, Cell.s heading, Cell.s subheading, Cell.n count,
   Cell.q (pct (devices.countP (fun d => d.tenant_present))),
   Cell.q (pct (devices.countP (fun d => d.contact_present))),
   Cell.q (pct (devices.countP (fun d => d.location_present))),
   Cell.q (pct (devices.countP (fun d => d.platform_present))),
   Cell.q (pct (devices.countP (fun d => pyTruthy d.primary_ip))),
   Cell.q (pct (devices.countP (fun d => pyTruthy d.serial))),
   Cell.q (pct (devices.countP (fun d => pyTruthy d.backup_primary))),
   Cell.q (pct (monitorTickCount devices))]

/-- The subheading names iterated at line 225: the static sub-map of the
heading, or the singleton "Other" for the Other heading (line 224). -/
def summarySubNames (heading : String) : List String :=
  if heading = "Other" then ["Other"]
  else
    match DEVICE_ROLE_GROUPS.find? (fun p => p.1 == heading) with
    | some p => p.2.map Prod.fst
    | Option.none => ["Other"]

/-- The summary rows of one heading at one site (lines 225-253): for each
static subheading, the bucket devices when the key exists (else an empty
list), skipping empty lists. -/
def summaryHeadingRows (agg : Agg) (keys : List Key)
    (site heading : String) : List Row :=
  (summarySubNames heading).filterMap (fun sub =>
    let devices :=
      if subPresent keys site heading sub
      then (agg (site, heading, sub)).devices else []
    if devices.length = 0 then Option.none
    else some (summaryDataRow site heading sub devices))

/-- The summary rows of one site (lines 221-223): headings iterated in
`HEADING_ORDER + ["Other"]`, skipping absent headings. -/
def summarySiteRows (agg : Agg) (keys : List Key) (site : String) : List Row :=
  (HEADING_ORDER ++ ["Other"]).flatMap (fun heading =>
    if headingPresent keys site heading
    then summaryHeadingRows agg keys site heading else [])

/-- All summary data rows (line 220): sites in sorted order. -/
def summaryRows (agg : Agg) (keys : List Key) : List Row :=
  (sitesSorted keys).flatMap (summarySiteRows agg keys)

/-- `int(row[3] or 0)` on a cell (line 267). -/
def cellNat : Cell → Nat
  | .n v => v
  | _ => 0

/-- `float(row[i] or 0)` on a cell (lines 270-277). -/
def cellRat : Cell → Rat
  | .q v => v
  | .n v => (v : Rat)
  | _ => 0

/-- Cell `i` of a row, blank when out of range. -/
def rowAt (r : Row) (i : Nat) : Cell := r.getD i (Cell.s "")

/-- The ALL SITES totals row (lines 255-297), recomputed from the summary
data rows exactly as the script does. -/
def totalRow (rows : List Row) : Row :=
  let total_count := (rows.map (fun r => cellNat (rowAt r 3))).sum
  let tot : Nat → Rat := fun i =>
    (rows.map (fun r => (cellNat (rowAt r 3) : Rat) * cellRat (rowAt r i))).sum
  if total_count > 0 then
    [Cell.s "ALL SITES", Cell.s "", Cell.s "", Cell.n total_count,
     Cell.q (tot 4 / (total_count : Rat)), Cell.q (tot 5 / (total_count : Rat)),
     Cell.q (tot 6 / (total_count : Rat)), Cell.q (tot 7 / (total_count : Rat)),
     Cell.q (tot 8 / (total_count : Rat)), Cell.q (tot 9 / (total_count : Rat)),
     Cell.q (tot 10 / (total_count : Rat)), Cell.q (tot 11 / (total_count : Rat))]
  else
    [Cell.s "ALL SITES", Cell.s "", Cell.s "", Cell.n 0,
     Cell.n 0, Cell.n 0, Cell.n 0, Cell.n 0,
     Cell.n 0, Cell.n 0, Cell.n 0, Cell.n 0]

/-- The full summary worksheet content: header row, data rows, totals
row, a blank row, and the generation-timestamp row (lines 206-332, with
`now` the formatted `datetime.now` value of line 329). -/
def summarySheetRows (agg : Agg) (keys : List Key) (now : String) : List Row :=
  let dataRows := summaryRows agg keys
  summary_headers.map Cell.s :: dataRows
    ++ [totalRow dataRows]
    ++ [[], [Cell.s ("Report generated: " ++ now)]]

/-- One rendered device row (lines 377-403): six value cells followed by
the eight tick symbols written into columns 7-14. -/
def deviceRow (d : DeviceInfo) : Row :=
  [Cell.s d.name, Cell.s (short_desc d.description 100),
   Cell.s (d.tenant.getD ""), Cell.s (d.contact.getD ""),
   Cell.s (d.location.getD ""), Cell.s (d.platform.getD "")]
  ++ [Cell.s (tick d.tenant_present).1, Cell.s (tick d.contact_present).1,
      Cell.s (tick d.location_present).1, Cell.s (tick d.platform_present).1,
      Cell.s (tick (pyTruthy d.primary_ip)).1, Cell.s (tick (pyTruthy d.serial)).1,
      Cell.s (tick (pyTruthy d.backup_primary)).1, Cell.s (tickMonitor d).1]

/-- One heading-subheading table (lines 362-407): title row, header row,
device rows sorted by name, and a trailing blank row. -/
def tableRows (heading subheading : String) (devs : List DeviceInfo) : List Row :=
  [Cell.s (heading ++ " - " ++ subheading)] :: headers.map Cell.s
    :: (sortByName devs).map deviceRow ++ [[]]

/-- The subheading names iterated at line 358: the keys of
`DEVICE_ROLE_GROUPS[heading]` (all rendered headings are table keys). -/
def tableSubNames (heading : String) : List String :=
  match DEVICE_ROLE_GROUPS.find? (fun p => p.1 == heading) with
  | some p => p.2.map Prod.fst
  | Option.none => []

/-- The tables of one present heading at one site (lines 358-361):
static subheadings in table order, skipping empty device lists. -/
def siteHeadingTables (agg : Agg) (site heading : String) : List Row :=
  (tableSubNames heading).flatMap (fun sub =>
    let devs := (agg (site, heading, sub)).devices
    if devs.isEmpty then [] else tableRows heading sub devs)

/-- The trailing Other-Other table of a site sheet (lines 409-453). -/
def otherTableRows (agg : Agg) (keys : List Key) (site : String) : List Row :=
  let od :=
    if subPresent keys site "Other" "Other"
    then (agg (site, "Other", "Other")).devices else []
  if od.isEmpty then [] else tableRows "Other" "Other" od

/-- The body rows of one site sheet (lines 355-453): headings iterated in
`HEADING_ORDER`, skipping absent ones, then the Other table last. -/
def siteBody (agg : Agg) (keys : List Key) (site : String) : List Row :=
  HEADING_ORDER.flatMap (fun heading =>
    if headingPresent keys site heading
    then siteHeadingTables agg site heading else [])
  ++ otherTableRows agg keys site

/-- One per-site worksheet (lines 348-453): title truncated to 31
characters, a title row, then the body. -/
def siteSheet (agg : Agg) (keys : List Key) (site : String) : Sheet :=
  ⟨site.take 31, [Cell.s (site ++ " Device Report")] :: siteBody agg keys site⟩

/-- The whole workbook content: the summary sheet at index 0 (line 207),
then one sheet per site in sorted site order (line 348). -/
def renderFrom (agg : Agg) (keys : List Key) (now : String) : Workbook :=
  ⟨"Summary", summarySheetRows agg keys now⟩
    :: (sitesSorted keys).map (fun site => siteSheet agg keys site)

/-- Aggregate the fetched items and render the workbook; `now` is the
formatted generation time read from the clock at line 329. -/
def renderWorkbook (items : List Item) (now : String) : Workbook :=
  renderFrom (aggregate items) (itemKeys items) now

/-- The headings the summary loop iterates for a site, in emission
order. -/
def summaryHeadings (keys : List Key) (site : String) : List String :=
  (HEADING_ORDER ++ ["Other"]).filter (fun h => headingPresent keys site h)

/-- The headings the per-site loop iterates for a site, in emission order
(the Other table is emitted separately afterwards). -/
def siteSheetHeadings (keys : List Key) (site : String) : List String :=
  HEADING_ORDER.filter (fun h => headingPresent keys site h)

/-- Python truthiness of an optional environment-variable value. -/
def truthy : Option String → Bool
  | Option.none => false
  | some s => s ≠ ""

/-- Python `a or b` on optional environment-variable values. -/
def pyOr (a b : Option String) : Option String := if truthy a then a else b

/-- `NETBOX_URL = os.environ.get(\x27NETBOX_URL\x27) or
os.environ.get(\x27NETBOX_API\x27)` (line 21). -/
def netboxUrl (env : String → Option String) : Option String :=
  pyOr (env "NETBOX_URL") (env "NETBOX_API")

/-- `NETBOX_TOKEN = os.environ.get(\x27NETBOX_TOKEN\x27)` (line 22). -/
def netboxToken (env : String → Option String) : Option String :=
  env "NETBOX_TOKEN"

/-- `NETBOX_URL.rstrip(\x27/\x27)` (lines 127 and 130). -/
def rstripSlash (s : String) : String :=
  String.mk ((s.data.reverse.dropWhile (fun c => c = '/')).reverse)

/-- The devices URL (line 127). -/
def devicesUrl (base : String) : String :=
  rstripSlash base ++ "/api/dcim/devices/?limit=1000&expand=role,site,tenant,contact,location,platform"

/-- The virtual-machines URL (line 130). -/
def vmsUrl (base : String) : String :=
  rstripSlash base ++ "/api/virtualization/virtual-machines/?limit=1000&expand=role,site,tenant,contact,location,platform"

/-- The startup guards (lines 9-27): the import guard, then the
environment-variable guard; on failure, the exit code and the message
written to standard error. -/
def startup (importsOk : Bool) (env : String → Option String) :
    Except (Nat × String) (String × String) :=
  if importsOk = false then
    .error (1, "Required libraries not installed. Run \x27pip install openpyxl pytz\x27 and retry.")
  else if truthy (netboxUrl env) = false || truthy (netboxToken env) = false then
    .error (1, "Missing NETBOX_URL (or NETBOX_API) or NETBOX_TOKEN environment variables.")
  else
    .ok ((netboxUrl env).getD "", (netboxToken env).getD "")

/-- A whole-run outcome: an abort via sys.exit with a message on standard
error, a crash from an unhandled HTTP error, or a rendered report. -/
inductive Outcome where
  | abort (code : Nat) (msg : String)
  | crash (httpStatus : Nat)
  | report (wb : Workbook)
deriving DecidableEq

/-- The whole script run: startup guards, the two paginated fetches, the
aggregation and the rendering; `none` means the fetch fuel ran out. -/
def runProgram (importsOk : Bool) (env : String → Option String)
    (server : String → Except Nat Page) (fuel : Nat) (now : String) :
    Option Outcome :=
  match startup importsOk env with
  | .error (c, m) => some (.abort c m)
  | .ok (url, _) =>
    match fetch_netbox_items server "device" fuel (some (devicesUrl url)) with
    | Option.none => Option.none
    | some (.error e) => some (.crash e)
    | some (.ok devices) =>
      match fetch_netbox_items server "vm" fuel (some (vmsUrl url)) with
      | Option.none => Option.none
      | some (.error e) => some (.crash e)
      | some (.ok vms) => some (.report (renderWorkbook (devices ++ vms) now))

/-- A concrete item whose raw status is the integer 1: not the string
"active", yet accepted by the filter `status not in (\x27active\x27, 1)`. -/
def statusOneItem : Item :=
  { baseItem with
    site := some "Alpha", status := StatusF.raw (PyVal.int 1),
    role := RoleF.obj (some 12), name := some "core-rtr-1" }

/-- A concrete item with a non-active status. -/
def offlineItem : Item :=
  { baseItem with
    site := some "Alpha", status := StatusF.raw (PyVal.str "offline"),
    role := RoleF.obj (some 12), name := some "old-rtr" }

/-- A concrete active item with the excluded role id 2. -/
def role2Item : Item :=
  { baseItem with
    site := some "Beta", status := StatusF.raw (PyVal.str "active"),
    role := RoleF.rint 2, name := some "excluded-dev" }

/-- A concrete active item with role id 5 (Switches, Enterprise Core). -/
def activeItem : Item :=
  { baseItem with
    site := some "Alpha", status := StatusF.obj (PyVal.str "active"),
    role := RoleF.obj (some 5), name := some "sw-core-1" }

/-- A concrete device-info record whose monitoring field is missing. -/
def monMissingDevice : DeviceInfo := mkDeviceInfo activeItem "Switches" "Enterprise Core"

/-- A two-page demo server for the pagination witness. -/
def demoServer : String → Except Nat Page := fun url =>
  if url = "page1" then .ok ⟨[offlineItem], some "page2"⟩
  else if url = "page2" then .ok ⟨[activeItem], Option.none⟩
  else .error 404

/-! ## Helper lemmas -/

theorem length_filterMap_eq_countP {α β : Type} (f : α → Option β) (l : List α) :
    (l.filterMap f).length = l.countP (fun a => (f a).isSome) := by
  induction l with
  | nil => rfl
  | cons a l ih =>
    cases h : f a <;>
      simp [List.filterMap_cons, h, List.countP_cons, ih, Nat.add_comm]

theorem processItem_eq_of_none {it : Item} (h : bucketOf it = Option.none)
    (acc : Agg) : processItem acc it = acc := by
  simp [processItem, h]

theorem foldl_count (items : List Item) (acc : Agg) (k : Key) :
    ((items.foldl processItem acc) k).count
      = (acc k).count + items.countP (fun it => decide (keyOf it = some k)) := by
  induction items generalizing acc with
  | nil => simp
  | cons it rest ih =>
    rw [List.foldl_cons, ih, List.countP_cons]
    have hstep : ((processItem acc it) k).count
        = (acc k).count + (if decide (keyOf it = some k) = true then 1 else 0) := by
      cases hb : bucketOf it with
      | none => simp [processItem, keyOf, hb]
      | some kd =>
        obtain ⟨q, d⟩ := kd
        by_cases hk : k = q
        · subst hk
          simp [processItem, keyOf, hb]
        · simp [processItem, keyOf, hb, hk, Ne.symm hk]
    rw [hstep]
    omega

theorem foldl_devices (items : List Item) (acc : Agg) (k : Key) :
    ((items.foldl processItem acc) k).devices
      = (acc k).devices ++ items.filterMap (bucketDevs k) := by
  induction items generalizing acc with
  | nil => simp
  | cons it rest ih =>
    rw [List.foldl_cons, ih, List.filterMap_cons]
    have hstep : ((processItem acc it) k).devices
        = (acc k).devices ++ (match bucketDevs k it with
            | some d => [d]
            | Option.none => []) := by
      cases hb : bucketOf it with
      | none => simp [processItem, bucketDevs, hb]
      | some kd =>
        obtain ⟨q, d⟩ := kd
        by_cases hk : k = q
        · subst hk
          simp [processItem, bucketDevs, hb]
        · simp [processItem, bucketDevs, hb, hk, Ne.symm hk]
    rw [hstep]
    cases hd : bucketDevs k it <;> simp [List.append_assoc]

theorem aggregate_count (items : List Item) (k : Key) :
    (aggregate items k).count
      = items.countP (fun it => decide (keyOf it = some k)) := by
  unfold aggregate
  rw [foldl_count]
  simp [emptyBucket]

theorem aggregate_devices (items : List Item) (k : Key) :
    (aggregate items k).devices = items.filterMap (bucketDevs k) := by
  unfold aggregate
  rw [foldl_devices]
  rfl

theorem keyOf_isSome_iff (it : Item) : (keyOf it).isSome = passes it := by
  unfold keyOf passes bucketOf
  cases hs : statusPasses it <;>
    cases hr : roleExcluded it <;>
      cases hid : roleId it <;> simp [hs, hr, hid]

theorem bucketDevs_isSome (k : Key) (it : Item) :
    ((bucketDevs k it).isSome) = decide (keyOf it = some k) := by
  unfold bucketDevs keyOf
  cases hb : bucketOf it with
  | none => simp
  | some kd =>
    obtain ⟨q, d⟩ := kd
    by_cases hk : q = k <;> simp [hk]

theorem aggregate_drop {it : Item} (h : bucketOf it = Option.none)
    (pre post : List Item) :
    aggregate (pre ++ it :: post) = aggregate (pre ++ post) := by
  unfold aggregate
  rw [List.foldl_append, List.foldl_append, List.foldl_cons,
    processItem_eq_of_none h]

theorem itemKeys_drop {it : Item} (h : bucketOf it = Option.none)
    (pre post : List Item) :
    itemKeys (pre ++ it :: post) = itemKeys (pre ++ post) := by
  unfold itemKeys
  have hk : keyOf it = Option.none := by simp [keyOf, h]
  simp [List.filterMap_append, List.filterMap_cons, hk]

theorem charsLe_total (as bs : List Char) :
    charsLe as bs = true ∨ charsLe bs as = true := by
  induction as generalizing bs with
  | nil => exact Or.inl rfl
  | cons a as ih =>
    cases bs with
    | nil => exact Or.inr rfl
    | cons b bs =>
      by_cases hab : a = b
      · subst hab
        rcases ih bs with h | h
        · exact Or.inl (by simp [charsLe, h])
        · exact Or.inr (by simp [charsLe, h])
      · rcases lt_or_gt_of_ne hab with h | h
        · exact Or.inl (by simp [charsLe, hab, h])
        · exact Or.inr (by simp [charsLe, Ne.symm hab, h])

theorem charsLe_trans {as bs cs : List Char} (h1 : charsLe as bs = true)
    (h2 : charsLe bs cs = true) : charsLe as cs = true := by
  induction as generalizing bs cs with
  | nil => rfl
  | cons a as ih =>
    cases bs with
    | nil => simp [charsLe] at h1
    | cons b bs =>
      cases cs with
      | nil => simp [charsLe] at h2
      | cons c cs =>
        by_cases hab : a = b <;> by_cases hbc : b = c
        · subst hab; subst hbc
          simp only [charsLe, if_pos rfl] at h1 h2 ⊢
          exact ih h1 h2
        · subst hab
          simp only [charsLe, if_pos rfl] at h1
          simp [charsLe, hbc] at h2 ⊢
          exact h2
        · subst hbc
          simp [charsLe, hab] at h1 ⊢
          exact h1
        · simp [charsLe, hab] at h1
          simp [charsLe, hbc] at h2
          have hac : a < c := lt_trans h1 h2
          simp [charsLe, ne_of_lt hac, hac]

instance : IsTotal String strLeP :=
  ⟨fun a b => charsLe_total a.data b.data⟩

instance : IsTrans String strLeP :=
  ⟨fun _ _ _ => charsLe_trans⟩

instance : IsTotal DeviceInfo byName :=
  ⟨fun d e => charsLe_total d.name.data e.name.data⟩

instance : IsTrans DeviceInfo byName :=
  ⟨fun _ _ _ => charsLe_trans⟩

theorem flatMap_guard_eq_filter {α β : Type} (l : List α) (p : α → Bool)
    (f : α → List β) :
    (l.flatMap fun a => if p a then f a else []) = (l.filter p).flatMap f := by
  induction l with
  | nil => rfl
  | cons a l ih =>
    by_cases h : p a <;> simp [List.filter_cons, h, ih]

theorem any_eq_of_perm {α : Type} {l1 l2 : List α} (h : l1.Perm l2)
    (p : α → Bool) : l1.any p = l2.any p := by
  cases h1 : l1.any p with
  | true =>
    obtain ⟨x, hx, hpx⟩ := List.any_eq_true.mp h1
    exact (List.any_eq_true.mpr ⟨x, h.mem_iff.mp hx, hpx⟩).symm
  | false =>
    cases h2 : l2.any p with
    | false => rfl
    | true =>
      obtain ⟨x, hx, hpx⟩ := List.any_eq_true.mp h2
      have hc : l1.any p = true := List.any_eq_true.mpr ⟨x, h.mem_iff.mpr hx, hpx⟩
      rw [h1] at hc
      cases hc

theorem headingPresent_perm {items items2 : List Item} (h : items.Perm items2)
    (site heading : String) :
    headingPresent (itemKeys items) site heading
      = headingPresent (itemKeys items2) site heading := by
  unfold headingPresent itemKeys
  exact any_eq_of_perm (h.filterMap keyOf) _

/-! ## Claim theorems -/

/-- C1: every role id listed in the static DEVICE_ROLE_GROUPS table is
classified to exactly the (heading, subheading) pair it is listed under
(the table scan returns the first match), and every role id absent from
the table is classified to ("Other", "Other"). -/
theorem classification_matches_table :
    (∀ hg ∈ DEVICE_ROLE_GROUPS, ∀ sg ∈ hg.2, ∀ rid ∈ sg.2,
        get_heading_and_subheading rid = (hg.1, sg.1))
    ∧ (∀ rid : Int, rid ∉ allRoleIds →
        get_heading_and_subheading rid = ("Other", "Other")) := by
  constructor
  · decide
  · intro rid h
    unfold get_heading_and_subheading
    have hnone : DEVICE_ROLE_GROUPS.findSome?
        (fun hg => hg.2.findSome?
          (fun sg => if rid ∈ sg.2 then some (hg.1, sg.1) else Option.none))
        = Option.none := by
      rw [List.findSome?_eq_none_iff]
      intro hg hhg
      rw [List.findSome?_eq_none_iff]
      intro sg hsg
      have hmem : rid ∉ sg.2 := by
        intro hc
        exact h (List.mem_flatMap.mpr ⟨hg, hhg, List.mem_flatMap.mpr ⟨sg, hsg, hc⟩⟩)
      simp [hmem]
    rw [hnone]

/-- Witness for C1: role id 999 is in no group and classifies to
("Other", "Other"). -/
theorem classification_matches_table_witness :
    (999 : Int) ∉ allRoleIds
    ∧ get_heading_and_subheading 999 = ("Other", "Other") :=
  ⟨by decide, classification_matches_table.2 999 (by decide)⟩

/-- C2: after the aggregation pass, the counts summed over all created
buckets equal the number of items that pass the status filter and are not
role-excluded; buckets never created stay empty; and every bucket's
device list is exactly the device records of the passing items keyed to
it, so each passing item lands in exactly one bucket. -/
theorem aggregation_totals (items : List Item) :
    (((itemKeys items).dedup.map (fun k => (aggregate items k).count)).sum
        = (items.filter passes).length)
    ∧ (∀ k : Key, k ∉ itemKeys items → aggregate items k = emptyBucket)
    ∧ (∀ k : Key, (aggregate items k).devices = items.filterMap (bucketDevs k)) := by
  refine ⟨?_, ?_, fun k => aggregate_devices items k⟩
  · have hbridge : ∀ (k : Key) (l : List Item),
        l.countP (fun it => decide (keyOf it = some k))
          = (l.filterMap keyOf).countP (fun q => decide (q = k)) := by
      intro k l
      induction l with
      | nil => rfl
      | cons it rest ih =>
        cases h : keyOf it with
        | none => simp [List.filterMap_cons, h, List.countP_cons, ih]
        | some q =>
          by_cases hq : q = k <;>
            simp [List.filterMap_cons, h, List.countP_cons, ih, hq]
    have hcount : ∀ k : Key, (aggregate items k).count
        = @List.count Key instBEqOfDecidableEq k (itemKeys items) := by
      intro k
      rw [aggregate_count]
      unfold itemKeys
      have hc : @List.count Key instBEqOfDecidableEq k (items.filterMap keyOf)
          = (items.filterMap keyOf).countP (fun q => decide (q = k)) := rfl
      rw [hc]
      exact hbridge k items
    calc ((itemKeys items).dedup.map (fun k => (aggregate items k).count)).sum
        = ((itemKeys items).dedup.map
            (fun k => @List.count Key instBEqOfDecidableEq k (itemKeys items))).sum := by
          congr 1
          exact List.map_congr_left (fun k _ => hcount k)
      _ = (itemKeys items).length := List.sum_map_count_dedup_eq_length _
      _ = (items.filter passes).length := by
          unfold itemKeys
          rw [length_filterMap_eq_countP, List.countP_eq_length_filter]
          congr 1
          apply List.filter_congr
          intro it _
          exact keyOf_isSome_iff it
  · intro k hk
    have hc : (aggregate items k).count = 0 := by
      rw [aggregate_count]
      rw [List.countP_eq_zero]
      intro it _hit
      simp only [decide_eq_true_eq]
      intro hko
      exact hk (by
        unfold itemKeys
        exact List.mem_filterMap.mpr ⟨it, _hit, hko⟩)
    have hd : (aggregate items k).devices = [] := by
      rw [aggregate_devices]
      rw [List.filterMap_eq_nil_iff]
      intro it _hit
      cases hb : bucketOf it with
      | none => simp [bucketDevs, hb]
      | some kd =>
        obtain ⟨q, d⟩ := kd
        have hq : q ≠ k := by
          intro hqk
          subst hqk
          exact hk (by
            unfold itemKeys
            exact List.mem_filterMap.mpr ⟨it, _hit, by simp [keyOf, hb]⟩)
        simp [bucketDevs, hb, hq]
    calc aggregate items k = ⟨(aggregate items k).count, (aggregate items k).devices⟩ := rfl
      _ = emptyBucket := by rw [hc, hd]; rfl

/-- Witness for C2: a key never bucketed stays the empty bucket. -/
theorem aggregation_totals_witness :
    ("A", "B", "C") ∉ itemKeys []
    ∧ aggregate [] ("A", "B", "C") = emptyBucket :=
  ⟨by decide, (aggregation_totals []).2.1 ("A", "B", "C") (by decide)⟩

/-- C9: every bucket's count equals the length of its device list after
the aggregation pass, and each loop iteration changes the two in step. -/
theorem bucket_count_matches_devices :
    (∀ (items : List Item) (k : Key),
        (aggregate items k).count = (aggregate items k).devices.length)
    ∧ (∀ (acc : Agg) (it : Item) (k : Key),
        ((processItem acc it) k).count + (acc k).devices.length
          = ((processItem acc it) k).devices.length + (acc k).count) := by
  constructor
  · intro items k
    rw [aggregate_count, aggregate_devices, length_filterMap_eq_countP]
    apply List.countP_congr
    intro it _
    rw [bucketDevs_isSome]
  · intro acc it k
    cases hb : bucketOf it with
    | none =>
      simp only [processItem, hb]
      omega
    | some kd =>
      obtain ⟨q, d⟩ := kd
      by_cases hk : k = q
      · subst hk
        simp [processItem, hb]
        omega
      · simp [processItem, hb, hk]
        omega

/-- C3 counterexample: an item whose status is the integer 1 is not
"active", yet the aggregation loop buckets it, because the filter at
line 140 accepts both \x27active\x27 and 1. -/
theorem nonactive_claim_counterexample :
    statusVal statusOneItem ≠ PyVal.str "active"
    ∧ (aggregate [statusOneItem] ("Alpha", "Gateway/Router", "Enterprise")).count = 1
    ∧ (aggregate [statusOneItem] ("Alpha", "Gateway/Router", "Enterprise")).devices ≠ [] := by
  refine ⟨by decide, ?_, ?_⟩ <;> decide

/-- C3 (amended): every item whose status value is neither equal to
"active" nor equal to 1 (Python `==`) is excluded from all buckets. -/
theorem nonactive_items_excluded (pre post : List Item) (it : Item)
    (h : statusPasses it = false) (k : Key) :
    aggregate (pre ++ it :: post) k = aggregate (pre ++ post) k := by
  have hb : bucketOf it = Option.none := by simp [bucketOf, h]
  rw [aggregate_drop hb]

/-- Witness for C3: a concrete offline item changes no bucket. -/
theorem nonactive_items_excluded_witness :
    statusPasses offlineItem = false
    ∧ aggregate ([] ++ offlineItem :: []) ("Alpha", "Gateway/Router", "Enterprise")
        = aggregate ([] ++ []) ("Alpha", "Gateway/Router", "Enterprise") :=
  ⟨by decide,
   nonactive_items_excluded [] [] offlineItem (by decide)
     ("Alpha", "Gateway/Router", "Enterprise")⟩

/-- C4: an item whose role id is in EXCLUDED_ROLE_IDS is dropped
entirely: it changes no bucket and leaves the rendered workbook
unchanged. -/
theorem excluded_roles_dropped (pre post : List Item) (it : Item) (r : Int)
    (h1 : roleId it = some r) (h2 : r ∈ EXCLUDED_ROLE_IDS) :
    (∀ k : Key, aggregate (pre ++ it :: post) k = aggregate (pre ++ post) k)
    ∧ (∀ now : String,
        renderWorkbook (pre ++ it :: post) now = renderWorkbook (pre ++ post) now) := by
  have hb : bucketOf it = Option.none := by
    unfold bucketOf
    cases hs : statusPasses it with
    | false => simp
    | true =>
      have hex : roleExcluded it = true := by
        unfold roleExcluded
        rw [h1]
        exact decide_eq_true h2
      simp [hex]
  refine ⟨fun k => by rw [aggregate_drop hb], fun now => ?_⟩
  unfold renderWorkbook
  rw [aggregate_drop hb, itemKeys_drop hb]

/-- Witness for C4: a concrete active item with role id 2 changes
nothing. -/
theorem excluded_roles_dropped_witness :
    roleId role2Item = some 2
    ∧ (2 : Int) ∈ EXCLUDED_ROLE_IDS
    ∧ aggregate ([] ++ role2Item :: []) ("Beta", "Other", "Other")
        = aggregate ([] ++ []) ("Beta", "Other", "Other")
    ∧ renderWorkbook ([] ++ role2Item :: []) "2025-01-01 09:00:00 AEDT"
        = renderWorkbook ([] ++ []) "2025-01-01 09:00:00 AEDT" :=
  ⟨rfl, by decide,
   (excluded_roles_dropped [] [] role2Item 2 rfl (by decide)).1 ("Beta", "Other", "Other"),
   (excluded_roles_dropped [] [] role2Item 2 rfl (by decide)).2 "2025-01-01 09:00:00 AEDT"⟩

/-- A server placeholder for witnesses; never consulted on abort paths. -/
def noServer : String → Except Nat Page := fun _ => .error 500

/-- C7: the fetch follows pagination: along a complete chain of pages it
returns the in-order concatenation of all tagged results, and along a
chain that reaches an HTTP error it propagates that error instead of a
partial result. -/
theorem pagination_follows_links :
    (∀ (server : String → Except Nat Page) (t : String) (u : Option String)
        (items : List Item) (n : Nat),
        Chain server t u items n →
        ∀ fuel : Nat, n ≤ fuel →
          fetch_netbox_items server t fuel u = some (.ok items))
    ∧ (∀ (server : String → Except Nat Page) (t : String) (u : Option String)
        (e n : Nat),
        ChainErr server u e n →
        ∀ fuel : Nat, n < fuel →
          fetch_netbox_items server t fuel u = some (.error e)) := by
  constructor
  · intro server t u items n hc
    induction hc with
    | nil => intro fuel _; cases fuel <;> rfl
    | cons hok hrest ih =>
      intro fuel hf
      obtain ⟨f, rfl⟩ : ∃ f, fuel = f + 1 := ⟨fuel - 1, by omega⟩
      simp only [fetch_netbox_items, hok, ih f (by omega)]
  · intro server t u e n hc
    induction hc with
    | here herr =>
      intro fuel hf
      obtain ⟨f, rfl⟩ : ∃ f, fuel = f + 1 := ⟨fuel - 1, by omega⟩
      simp only [fetch_netbox_items, herr]
    | step hok hrest ih =>
      intro fuel hf
      obtain ⟨f, rfl⟩ : ∃ f, fuel = f + 1 := ⟨fuel - 1, by omega⟩
      simp only [fetch_netbox_items, hok, ih f (by omega)]

/-- Witness for C7: the two-page demo server yields both pages in order,
and an erroring URL propagates its status. -/
theorem pagination_follows_links_witness :
    fetch_netbox_items demoServer "device" 2 (some "page1")
      = some (.ok [setItemType "device" offlineItem, setItemType "device" activeItem])
    ∧ fetch_netbox_items demoServer "device" 1 (some "nope") = some (.error 404) :=
  ⟨pagination_follows_links.1 demoServer "device" (some "page1") _ 2
      (Chain.cons rfl (Chain.cons rfl Chain.nil)) 2 (Nat.le_refl 2),
   pagination_follows_links.2 demoServer "device" (some "nope") 404 0
      (ChainErr.here rfl) 1 (by omega)⟩

/-- C8: when the import guard fails, or the resolved API base URL or the
token environment variable is missing (falsy), the run aborts with exit
code 1 and the corresponding standard-error message, for every server:
no fetch and no rendering happens. -/
theorem startup_failure_aborts (importsOk : Bool) (env : String → Option String)
    (h : importsOk = false ∨ truthy (netboxUrl env) = false
        ∨ truthy (netboxToken env) = false) :
    ∀ (server : String → Except Nat Page) (fuel : Nat) (now : String),
      runProgram importsOk env server fuel now
        = some (.abort 1 (if importsOk = false
            then "Required libraries not installed. Run \x27pip install openpyxl pytz\x27 and retry."
            else "Missing NETBOX_URL (or NETBOX_API) or NETBOX_TOKEN environment variables.")) := by
  intro server fuel now
  cases hi : importsOk with
  | false => simp [runProgram, startup]
  | true =>
    have henv : truthy (netboxUrl env) = false ∨ truthy (netboxToken env) = false := by
      rcases h with h | h | h
      · rw [hi] at h; cases h
      · exact Or.inl h
      · exact Or.inr h
    rcases henv with h2 | h2 <;> simp [runProgram, startup, h2]

/-- Witness for C8: with no environment variables set, the run aborts
with exit code 1 and the missing-variables message, no matter the
server. -/
theorem startup_failure_aborts_witness :
    runProgram true (fun _ => Option.none) noServer 3 "2025-01-01 09:00:00 AEDT"
      = some (.abort 1 "Missing NETBOX_URL (or NETBOX_API) or NETBOX_TOKEN environment variables.") := by
  have h := startup_failure_aborts true (fun _ => Option.none)
    (Or.inr (Or.inl (by decide))) noServer 3 "2025-01-01 09:00:00 AEDT"
  simpa using h

/-- C10: the monitoring indicator counts an item as compliant exactly
when its monitoring custom field is not the boolean False: the summary
counter and the per-row tick both use `is not False`, and a missing or
None field yields a green tick. -/
theorem monitoring_not_false_green :
    (∀ v : PyVal, isNotFalse v = true ↔ v ≠ PyVal.bool false)
    ∧ isNotFalse PyVal.none = true
    ∧ (∀ devs : List DeviceInfo,
        monitorTickCount devs
          = devs.countP (fun d => decide (d.monitoring_required ≠ PyVal.bool false)))
    ∧ (∀ d : DeviceInfo,
        (deviceRow d).getD 13 (Cell.s "")
          = Cell.s (tick (isNotFalse d.monitoring_required)).1)
    ∧ (∀ d : DeviceInfo, d.monitoring_required = PyVal.none →
        tickMonitor d = ("✓", "00AA00")) := by
  refine ⟨fun v => by simp [isNotFalse], rfl, fun devs => rfl, fun d => rfl, ?_⟩
  intro d h
  unfold tickMonitor
  rw [h]
  rfl

/-- Witness for C10: a device record with the monitoring field missing
gets the green tick. -/
theorem monitoring_not_false_green_witness :
    monMissingDevice.monitoring_required = PyVal.none
    ∧ tickMonitor monMissingDevice = ("✓", "00AA00") :=
  ⟨rfl, monitoring_not_false_green.2.2.2.2 monMissingDevice rfl⟩

/-- C5 counterexample: two runs over the same (empty) item list at
different clock readings produce different workbook content, because the
summary sheet embeds the generation timestamp (line 329). -/
theorem render_claim_counterexample :
    renderWorkbook [] "2025-01-01 09:00:00 AEDT"
      ≠ renderWorkbook [] "2025-01-02 09:00:00 AEDT" := by
  decide

/-- C5 (amended): rendering is deterministic given the fetched item list
and the generation timestamp, the worksheets after the summary are the
sites in ascending alphabetical order, and every device table is sorted
ascending by device name. -/
theorem render_deterministic_sorted (items : List Item) (now now2 : String)
    (h : now = now2) :
    (renderWorkbook items now = renderWorkbook items now2)
    ∧ ((renderWorkbook items now).map Sheet.title
        = "Summary" :: (sitesSorted (itemKeys items)).map (fun s => s.take 31))
    ∧ List.Sorted strLeP (sitesSorted (itemKeys items))
    ∧ (∀ k : Key, List.Sorted byName (sortByName (aggregate items k).devices)) := by
  refine ⟨by rw [h], ?_, ?_, ?_⟩
  · simp [renderWorkbook, renderFrom, List.map_map, Function.comp, siteSheet]
  · unfold sitesSorted strSort
    exact List.sorted_insertionSort strLeP _
  · intro k
    unfold sortByName
    exact List.sorted_insertionSort byName _

/-- Witness for C5: with no items and a fixed timestamp, the rendering
repeats itself and the workbook is the summary sheet alone. -/
theorem render_deterministic_sorted_witness :
    renderWorkbook [] "2025-01-01 09:00:00 AEDT"
        = renderWorkbook [] "2025-01-01 09:00:00 AEDT"
    ∧ (renderWorkbook [] "2025-01-01 09:00:00 AEDT").map Sheet.title = ["Summary"] := by
  have h := render_deterministic_sorted [] "2025-01-01 09:00:00 AEDT"
    "2025-01-01 09:00:00 AEDT" rfl
  refine ⟨h.1, ?_⟩
  rw [h.2.1]
  rfl

/-- C6: both rendering loops iterate headings in the fixed order: the
summary loop emits exactly the present headings of
`HEADING_ORDER + ["Other"]` in that order (a sublist of it), the
per-site body is the present headings of `HEADING_ORDER` in order
followed by the Other table last, and which headings are present does
not depend on the order items were fetched or aggregated. -/
theorem heading_order_fixed (items : List Item) (site : String) :
    (summarySiteRows (aggregate items) (itemKeys items) site
        = (summaryHeadings (itemKeys items) site).flatMap
            (summaryHeadingRows (aggregate items) (itemKeys items) site))
    ∧ (summaryHeadings (itemKeys items) site).Sublist (HEADING_ORDER ++ ["Other"])
    ∧ (siteBody (aggregate items) (itemKeys items) site
        = (siteSheetHeadings (itemKeys items) site).flatMap
            (siteHeadingTables (aggregate items) site)
          ++ otherTableRows (aggregate items) (itemKeys items) site)
    ∧ (∀ items2 : List Item, items.Perm items2 →
        summaryHeadings (itemKeys items) site = summaryHeadings (itemKeys items2) site
        ∧ siteSheetHeadings (itemKeys items) site
            = siteSheetHeadings (itemKeys items2) site) := by
  refine ⟨?_, ?_, ?_, ?_⟩
  · unfold summarySiteRows summaryHeadings
    exact flatMap_guard_eq_filter _ _ _
  · unfold summaryHeadings
    exact List.filter_sublist _
  · unfold siteBody siteSheetHeadings
    rw [flatMap_guard_eq_filter]
  · intro items2 hperm
    constructor
    · unfold summaryHeadings
      exact List.filter_congr (fun h _ => headingPresent_perm hperm site h)
    · unfold siteSheetHeadings
      exact List.filter_congr (fun h _ => headingPresent_perm hperm site h)

/-- Witness for C6: a single active switch item gives a heading list that
is a sublist of the fixed order, unchanged under a permutation. -/
theorem heading_order_fixed_witness :
    (summaryHeadings (itemKeys [activeItem]) "Alpha").Sublist
        (HEADING_ORDER ++ ["Other"])
    ∧ summaryHeadings (itemKeys [activeItem]) "Alpha"
        = summaryHeadings (itemKeys [activeItem]) "Alpha" :=
  ⟨(heading_order_fixed [activeItem] "Alpha").2.1,
   ((heading_order_fixed [activeItem] "Alpha").2.2.2 [activeItem]
      (List.Perm.refl _)).1⟩

end NetboxReport
